/-
Verification of the leafmap toolbar module (src/leafmap/toolbar.py).

Each section shallowly embeds one part of the Python source:

* `Toolbar.PanelState` / `Toolbar.step` — the hover/pin/close state machine
  of `tool_template` (the handlers `handle_toolbar_event`,
  `toolbar_btn_click`, `close_btn_click`).  Widget mutation is modelled as
  explicit state passing; `pointerOver` is a ghost variable recording the
  last pointer event, which the Python code does not store anywhere.
  ipywidgets `observe` callbacks fire only when the observed trait value
  actually changes, so every modelled event first checks whether the
  written value differs from the stored one.
* `Toolbar.PlayState` — the play/pause background loop of `time_slider`
  (`play_click`, `pause_click`, `work`).
* `Toolbar.work_advance` — the index advance of the `work` loop body.
* raster field parsing of `open_data_widget.ok_cancel_clicked`.
* `Toolbar.tool_callback_loop` — the sibling-deactivation loop of
  `main_toolbar.tool_callback`.
* `Toolbar.split_basemaps` / `Toolbar.split_close_btn_click` — the
  save/restore of map controls and layers in `split_basemaps`.
* `Toolbar.time_slider` — the argument validation prefix of `time_slider`.
* `Toolbar.change_basemap_layers` / `Toolbar.on_click_substitute` — the
  basemap-list normalisation of `change_basemap` and its dropdown handler.
-/
import Mathlib

namespace Toolbar

/-- Display state of a tool panel: `collapsed` shows only the toggle icon
(`toolbar_widget.children = [toolbar_button]`), `expanded` shows the header
and the body (`toolbar_widget.children = [toolbar_header, toolbar_footer]`).
The source swaps the child list wholesale, so two values suffice. -/
inductive Children where
  | collapsed
  | expanded
deriving DecidableEq, Repr

/-- State of one `tool_template` panel together with the map fields it
touches.  `pinned` is `toolbar_button.value`, `closeVal` is
`close_button.value`, `widgetClosed` records `toolbar_widget.close()`.
`pointerOver` is a ghost flag: true after a `mouseenter` and false after a
`mouseleave`; the Python code never stores it.  `controls` is the map's
control list (controls named by numbers) and `toolControl` is
`m.tool_control`. -/
structure PanelState where
  children : Children
  pinned : Bool
  closeVal : Bool
  pointerOver : Bool
  controls : List Nat
  toolControl : Option Nat
  widgetClosed : Bool
deriving DecidableEq, Repr

/-- Events delivered to a panel: the two DOM pointer events watched by
`ipyevents.Event`, and the observed value changes of the two toggle
buttons (`toolbar_button` = pin, `close_button` = close). -/
inductive Event where
  | enter
  | leave
  | pinOn
  | pinOff
  | closeOn
  | closeOff
deriving DecidableEq, Repr

/-- `handle_toolbar_event` on `mouseenter`: unconditionally show header and
footer.  The ghost `pointerOver` becomes true. -/
def stepEnter (s : PanelState) : PanelState :=
  { s with children := .expanded, pointerOver := true }

/-- `handle_toolbar_event` on `mouseleave`: if `toolbar_button.value` is
false, collapse to the icon and write `toolbar_button.value = False`
(no observer fires: the value is already false) and
`close_button.value = False` (its observer does nothing on a change to
`False`).  If the panel is pinned nothing changes.  The ghost
`pointerOver` becomes false. -/
def stepLeave (s : PanelState) : PanelState :=
  if s.pinned then
    { s with pointerOver := false }
  else
    { s with children := .collapsed, closeVal := false, pointerOver := false }

/-- `toolbar_btn_click` on a change of `toolbar_button.value` to `True`:
set `close_button.value = False` (its observer does nothing on `False`)
and show header and footer.  If the value was already true the trait does
not change and no observer fires. -/
def stepPinOn (s : PanelState) : PanelState :=
  if s.pinned then s
  else { s with pinned := true, closeVal := false, children := .expanded }

/-- `toolbar_btn_click` on a change of `toolbar_button.value` to `False`:
if `close_button.value` is false, collapse to the icon.  If the value was
already false no observer fires. -/
def stepPinOff (s : PanelState) : PanelState :=
  if s.pinned then
    { s with pinned := false,
             children := if s.closeVal then s.children else .collapsed }
  else s

/-- `close_btn_click` on a change of `close_button.value` to `True`:
set `toolbar_button.value = False` (whose observer sees
`close_button.value = True` and leaves the children alone), then, only when
`m.tool_control` is not `None` and is still in `m.controls`, remove it and
clear `m.tool_control`; finally `toolbar_widget.close()`.
(`m.toolbar_reset()` only clears the main toolbar grid's toggle flags and
touches none of the fields modelled here.)  If the value was already true
no observer fires. -/
def stepCloseOn (s : PanelState) : PanelState :=
  if s.closeVal then s
  else
    let s1 := { s with closeVal := true, pinned := false }
    let s2 :=
      match s1.toolControl with
      | some c =>
          if c ∈ s1.controls then
            { s1 with controls := s1.controls.erase c, toolControl := none }
          else s1
      | none => s1
    { s2 with widgetClosed := true }

/-- `close_btn_click` on a change of `close_button.value` to `False`: the
handler body is guarded by `if change["new"]:`, so nothing happens. -/
def stepCloseOff (s : PanelState) : PanelState :=
  if s.closeVal then { s with closeVal := false } else s

/-- One event of the panel state machine. -/
def step (s : PanelState) : Event → PanelState
  | .enter => stepEnter s
  | .leave => stepLeave s
  | .pinOn => stepPinOn s
  | .pinOff => stepPinOff s
  | .closeOn => stepCloseOn s
  | .closeOff => stepCloseOff s

/-- Run a sequence of events. -/
def run (s : PanelState) (evs : List Event) : PanelState :=
  evs.foldl step s

/-- The state of a freshly built panel before `toolbar_button.value = True`
fires: `toolbar_widget.children = [toolbar_button]`, both toggles false,
no tool control attached yet. -/
def initState : PanelState :=
  { children := .collapsed, pinned := false, closeVal := false,
    pointerOver := false, controls := [], toolControl := none,
    widgetClosed := false }

/-- The two pointer events, as delivered by the external pointer source. -/
inductive HoverEv where
  | enter
  | leave
deriving DecidableEq, Repr

/-- A pointer event as a panel event. -/
def HoverEv.toEvent : HoverEv → Event
  | .enter => .enter
  | .leave => .leave

/-- Hover events keep `pinned` false, and from an unpinned state the display
after a hover sequence is determined by the last event: `mouseenter` leaves
it expanded, `mouseleave` leaves it collapsed, no event leaves it as it
was. -/
theorem run_hover_children (evs : List HoverEv) :
    ∀ s : PanelState, s.pinned = false →
    (run s (evs.map HoverEv.toEvent)).pinned = false ∧
    (run s (evs.map HoverEv.toEvent)).children =
      (match evs.getLast? with
       | some HoverEv.enter => Children.expanded
       | some HoverEv.leave => Children.collapsed
       | none => s.children) := by
  induction evs with
  | nil => intro s hs; exact ⟨hs, rfl⟩
  | cons e rest ih =>
    intro s hs
    have hstep : run s ((e :: rest).map HoverEv.toEvent)
        = run (step s e.toEvent) (rest.map HoverEv.toEvent) := rfl
    have hpin : (step s e.toEvent).pinned = false := by
      cases e <;> simp [step, HoverEv.toEvent, stepEnter, stepLeave, hs]
    rw [hstep]
    refine ⟨(ih _ hpin).1, ?_⟩
    rw [(ih _ hpin).2]
    cases rest with
    | nil =>
      cases e with
      | enter => simp [step, HoverEv.toEvent, stepEnter]
      | leave => simp [step, HoverEv.toEvent, stepLeave, hs]
    | cons e2 rest2 =>
      have hcc : (e :: e2 :: rest2).getLast? = (e2 :: rest2).getLast? :=
        List.getLast?_cons_cons
      rw [hcc]
      cases hl : (e2 :: rest2).getLast? with
      | none => simp [List.getLast?_eq_none_iff] at hl
      | some x => cases x <;> rfl

/-- C1: starting from the fresh panel state (collapsed, unpinned), any
finite sequence of pointer-enter/pointer-leave events keeps the pinned
flag false and ends with the panel expanded if and only if the last event
was pointer-enter; in particular the empty sequence leaves the initial
collapsed state unchanged. -/
theorem c1_hover_last_event (evs : List HoverEv) :
    (run initState (evs.map HoverEv.toEvent)).pinned = false ∧
    ((run initState (evs.map HoverEv.toEvent)).children = Children.expanded ↔
      evs.getLast? = some HoverEv.enter) ∧
    run initState ([] : List Event) = initState := by
  refine ⟨(run_hover_children evs initState rfl).1, ?_, rfl⟩
  rw [(run_hover_children evs initState rfl).2]
  cases hl : evs.getLast? with
  | none => simp [initState]
  | some x => cases x <;> simp [initState]

/-- C2 counterexample: after pointer-enter followed by pin-toggle(on), the
panel is expanded, pinned, and the pointer is over the panel region; yet
pin-toggle(off) collapses it even though the pointer is still over the
panel, contradicting the claim that the state becomes collapsed only if
the pointer is not over the panel. -/
theorem c2_pin_off_counterexample :
    (run initState [Event.enter, Event.pinOn]).children = Children.expanded ∧
    (run initState [Event.enter, Event.pinOn]).pinned = true ∧
    (run initState [Event.enter, Event.pinOn]).pointerOver = true ∧
    (step (run initState [Event.enter, Event.pinOn])
        Event.pinOff).pointerOver = true ∧
    (step (run initState [Event.enter, Event.pinOn])
        Event.pinOff).children = Children.collapsed := by
  decide

/-- C2 amended: pin-toggle(off) on a pinned panel clears the pinned flag
and collapses the panel whenever the close toggle is off, regardless of
whether the pointer is over the panel region; the children are left
unchanged only when the close toggle is on (and the event is a no-op on an
already unpinned panel, whose pinned flag is false already). -/
theorem c2_pin_off_amended (s : PanelState) :
    (step s Event.pinOff).pinned = false ∧
    (step s Event.pinOff).children =
      (if s.pinned && !s.closeVal then Children.collapsed else s.children) ∧
    (step s Event.pinOff).pointerOver = s.pointerOver := by
  cases hp : s.pinned <;> cases hc : s.closeVal <;>
    simp [step, stepPinOff, hp, hc]

/-- C5: the close handler never grows the control list, a second close
immediately after a first close changes nothing, and when the panel is
already detached (its tool control is no longer in the map's control list,
or was already cleared) the handler leaves the control list untouched:
the detach branch runs only when the control is still present. -/
theorem c5_close_detached_safe (s : PanelState) :
    ((step s Event.closeOn).controls).Sublist s.controls ∧
    step (step s Event.closeOn) Event.closeOn = step s Event.closeOn ∧
    (∀ c, s.toolControl = some c → c ∉ s.controls →
        (step s Event.closeOn).controls = s.controls) ∧
    (s.toolControl = none → (step s Event.closeOn).controls = s.controls) := by
  by_cases hcv : s.closeVal
  · refine ⟨?_, ?_, ?_, ?_⟩ <;>
      simp [step, stepCloseOn, hcv, List.Sublist.refl]
  · cases ht : s.toolControl with
    | none =>
      refine ⟨?_, ?_, ?_, ?_⟩ <;>
        simp [step, stepCloseOn, hcv, ht, List.Sublist.refl]
    | some c =>
      by_cases hm : c ∈ s.controls
      · refine ⟨?_, ?_, ?_, ?_⟩
        · simp [step, stepCloseOn, hcv, ht, hm]
          exact List.erase_sublist c s.controls
        · simp [step, stepCloseOn, hcv, ht, hm]
        · intro c' hc' hnc'
          cases hc'
          exact absurd hm hnc'
        · intro h
          cases h
      · refine ⟨?_, ?_, ?_, ?_⟩ <;>
          simp [step, stepCloseOn, hcv, ht, hm, List.Sublist.refl]

/-- Witness for C5 at a concrete state: a panel whose tool control 7 is
already absent from the (empty) control list; closing leaves the control
list empty. -/
theorem c5_close_detached_safe_witness :
    (step { children := .collapsed, pinned := false, closeVal := false,
            pointerOver := false, controls := [], toolControl := some 7,
            widgetClosed := false } Event.closeOn).controls = [] := by
  exact (c5_close_detached_safe
    { children := .collapsed, pinned := false, closeVal := false,
      pointerOver := false, controls := [], toolControl := some 7,
      widgetClosed := false }).2.2.1 7 rfl (by decide)

/-- State of the `time_slider` playback controls: `playChk` is the hidden
checkbox `play_chk.value` (the run flag) and `activeTasks` counts `work`
threads that have been created and started by `thread.start()` and have
not yet observed a false run flag and exited.  A `work` thread loops
`while play_chk.value`, so no active task exits while the run flag stays
true. -/
structure PlayState where
  playChk : Bool
  activeTasks : Nat
deriving DecidableEq, Repr

/-- `play_chk = widgets.Checkbox(value=False)`: the run flag starts false
and no thread has been started. -/
def initPlayState : PlayState :=
  { playChk := false, activeTasks := 0 }

/-- `play_click`: sets `play_chk.value = True` and then unconditionally
creates and starts a new `work` thread; the handler contains no test of
the run flag (or of any other guard) before `thread.start()`. -/
def play_click (s : PlayState) : PlayState :=
  { playChk := true, activeTasks := s.activeTasks + 1 }

/-- `pause_click`: clears the run flag; each running `work` thread exits
at its next loop test. -/
def pause_click (s : PlayState) : PlayState :=
  { s with playChk := false }

/-- C3 (code bug): pressing play once sets the run flag, and pressing play
again while the run flag is still set starts a second concurrent advance
task — `play_click` starts a thread unconditionally, with no
compare-and-set style check of the run flag, contradicting the claimed
guard against double-starts. -/
theorem c3_play_click_double_start :
    (play_click initPlayState).playChk = true ∧
    (play_click (play_click initPlayState)).activeTasks = 2 := by
  decide

/-- The body of one advance of the `work` loop over `n = len(labels)`
layers: `if slider.value < len(labels): slider.value += 1 else:
slider.value = 1`. -/
def work_advance (n i : Nat) : Nat :=
  if i < n then i + 1 else 1

/-- C4: for an index `i` in `[1, n]`, one advance of the `work` loop keeps
the index in `[1, n]`, wraps `n` to `1`, and never produces `n + 1`. -/
theorem c4_work_advance_wraps (n i : Nat) (h1 : 1 ≤ i) (h2 : i ≤ n) :
    1 ≤ work_advance n i ∧ work_advance n i ≤ n ∧
    (i = n → work_advance n i = 1) ∧ work_advance n i ≠ n + 1 := by
  unfold work_advance
  by_cases h : i < n <;> simp [h] <;> omega

/-- Witness for C4 at `n = 3`, `i = 3`: the advance wraps to 1. -/
theorem c4_work_advance_wraps_witness :
    1 ≤ work_advance 3 3 ∧ work_advance 3 3 ≤ 3 ∧
    (3 = 3 → work_advance 3 3 = 1) ∧ work_advance 3 3 ≠ 4 :=
  c4_work_advance_wraps 3 3 (by decide) (by decide)

/-- Decimal digit characters folded into a natural number. -/
def digitsVal (cs : List Char) : Nat :=
  cs.foldl (fun a c => a * 10 + (c.toNat - 48)) 0

/-- Nonempty, all decimal digits. -/
def allDigits (cs : List Char) : Bool :=
  !cs.isEmpty && cs.all Char.isDigit

/-- Python `int(text)` on the decimal literals relevant to the raster
fields: an optional sign followed by at least one digit parses; any other
text raises `ValueError`, modelled as `none`. -/
def pyInt (s : String) : Option Int :=
  match s.data with
  | '-' :: rest =>
      if allDigits rest then some (-(digitsVal rest : Int)) else none
  | '+' :: rest =>
      if allDigits rest then some (digitsVal rest : Int) else none
  | cs => if allDigits cs then some (digitsVal cs : Int) else none

/-- Unsigned part of a Python `float` decimal literal: digits with an
optional decimal point, at least one digit overall (`"2"`, `"2.5"`,
`".5"`, `"2."`). The value is returned as a rational; the toolbar does no
arithmetic on it, it is only handed to the layer-add call. -/
def pyFloatCore (cs : List Char) : Option ℚ :=
  match cs.splitOn '.' with
  | [ip] => if allDigits ip then some (digitsVal ip : ℚ) else none
  | [ip, fp] =>
      if ip.all Char.isDigit && fp.all Char.isDigit &&
          (!ip.isEmpty || !fp.isEmpty) then
        some ((digitsVal ip : ℚ) + (digitsVal fp : ℚ) / ((10 : ℚ) ^ fp.length))
      else none
  | _ => none

/-- Python `float(text)` on the decimal literals relevant to the raster
fields; any other text raises `ValueError`, modelled as `none`. -/
def pyFloat (s : String) : Option ℚ :=
  match s.data with
  | '-' :: rest => (pyFloatCore rest).map (fun q => -q)
  | '+' :: rest => pyFloatCore rest
  | cs => pyFloatCore cs

/-- The four optional values handed to `m.add_local_tile` by the raster
branch of `ok_cancel_clicked`: `band`, `vmin`, `vmax`, `nodata`. -/
structure RasterVis where
  band : Option Int
  vis_min : Option ℚ
  vis_max : Option ℚ
  vis_nodata : Option ℚ
deriving DecidableEq, Repr

/-- Stage 4 of the `try` block: `if len(nodata.value) > 0:
vis_nodata = float(nodata.value)`; a parse failure raises, and the bare
`except: pass` keeps the values assigned so far. -/
def rasterStageNodata (r : RasterVis) (nodata : String) : RasterVis :=
  if nodata.length > 0 then
    match pyFloat nodata with
    | none => r
    | some v => { r with vis_nodata := some v }
  else r

/-- Stage 3 of the `try` block: `vmax`; a parse failure aborts the block,
skipping the `nodata` stage. -/
def rasterStageVmax (r : RasterVis) (vmax nodata : String) : RasterVis :=
  if vmax.length > 0 then
    match pyFloat vmax with
    | none => r
    | some v => rasterStageNodata { r with vis_max := some v } nodata
  else rasterStageNodata r nodata

/-- Stage 2 of the `try` block: `vmin`; a parse failure aborts the block,
skipping the `vmax` and `nodata` stages. -/
def rasterStageVmin (r : RasterVis) (vmin vmax nodata : String) : RasterVis :=
  if vmin.length > 0 then
    match pyFloat vmin with
    | none => r
    | some v => rasterStageVmax { r with vis_min := some v } vmax nodata
  else rasterStageVmax r vmax nodata

/-- The raster branch of `ok_cancel_clicked`: all four values start as
`None`; one `try` block then parses `bands`, `vmin`, `vmax`, `nodata` in
that order, each only when its text is nonempty; the first parse failure
raises into the bare `except: pass`, which keeps every value assigned so
far and leaves the failing field and all later fields `None`.  The
function is total: no error reaches the user. -/
def ok_cancel_raster_vis (bands vmin vmax nodata : String) : RasterVis :=
  let r0 : RasterVis := ⟨none, none, none, none⟩
  if bands.length > 0 then
    match pyInt bands with
    | none => r0
    | some b => rasterStageVmin { r0 with band := some b } vmin vmax nodata
  else rasterStageVmin r0 vmin vmax nodata

/-- An integer field as the claim reads it: unset when empty or failing,
the parsed value otherwise, independently of every other field. -/
def parsedOrUnsetInt (s : String) : Option Int :=
  if s.length > 0 then pyInt s else none

/-- A float field as the claim reads it: unset when empty or failing, the
parsed value otherwise, independently of every other field. -/
def parsedOrUnsetFloat (s : String) : Option ℚ :=
  if s.length > 0 then pyFloat s else none

/-- The claim's per-field reading of the raster branch: every field that
parses is passed with its parsed value, regardless of the other fields. -/
def raster_vis_per_field (bands vmin vmax nodata : String) : RasterVis :=
  ⟨parsedOrUnsetInt bands, parsedOrUnsetFloat vmin,
   parsedOrUnsetFloat vmax, parsedOrUnsetFloat nodata⟩

/-- A nonempty integer field whose text fails to parse. -/
def fieldFailsInt (s : String) : Bool :=
  decide (s.length > 0) && (pyInt s).isNone

/-- A nonempty float field whose text fails to parse. -/
def fieldFailsFloat (s : String) : Bool :=
  decide (s.length > 0) && (pyFloat s).isNone

/-- The amended reading of the raster branch: a field gets its per-field
value only when no earlier field failed to parse; from the first failing
field on, every field is unset. -/
def raster_vis_amended (bands vmin vmax nodata : String) : RasterVis :=
  { band := parsedOrUnsetInt bands,
    vis_min :=
      if fieldFailsInt bands then none else parsedOrUnsetFloat vmin,
    vis_max :=
      if fieldFailsInt bands || fieldFailsFloat vmin then none
      else parsedOrUnsetFloat vmax,
    vis_nodata :=
      if fieldFailsInt bands || fieldFailsFloat vmin || fieldFailsFloat vmax
      then none else parsedOrUnsetFloat nodata }

/-- C6 counterexample: with `bands = "a"` (fails to parse) and
`vmax = "2"` (parses to 2), the code passes `vmax` as unset even though it
parses, because the single `try` block aborted at the `bands` field —
refuting the per-field reading of the claim. -/
theorem c6_raster_counterexample :
    ok_cancel_raster_vis "a" "" "2" "" ≠ raster_vis_per_field "a" "" "2" "" ∧
    (raster_vis_per_field "a" "" "2" "").vis_max = some 2 ∧
    (ok_cancel_raster_vis "a" "" "2" "").vis_max = none := by
  decide

/-- C6 amended: the raster branch never surfaces an error, and passes each
field per-field (parsed value when nonempty and parsing, unset otherwise)
only up to the first failing field; the first failure leaves that field
and every later field unset, while fields already parsed keep their
values. -/
theorem c6_raster_amended (bands vmin vmax nodata : String) :
    ok_cancel_raster_vis bands vmin vmax nodata =
      raster_vis_amended bands vmin vmax nodata := by
  unfold ok_cancel_raster_vis raster_vis_amended rasterStageVmin
    rasterStageVmax rasterStageNodata parsedOrUnsetInt parsedOrUnsetFloat
    fieldFailsInt fieldFailsFloat
  by_cases hb : bands.length > 0 <;>
    by_cases hv1 : vmin.length > 0 <;>
      by_cases hv2 : vmax.length > 0 <;>
        by_cases hv3 : nodata.length > 0 <;>
          cases hpb : pyInt bands <;>
            cases hp1 : pyFloat vmin <;>
              cases hp2 : pyFloat vmax <;>
                cases hp3 : pyFloat nodata <;>
                  simp [hb, hv1, hv2, hv3, hpb, hp1, hp2, hp3]

/-- The sibling-deactivation loop of `tool_callback` in `main_toolbar`:
when the toggle at position `cur` of `toolbar_grid.children` transitions
to active, the handler walks the children and writes `tool.value = False`
on every toggle that is not the activated one.  (Each such write fires
`tool_callback` with `change["new"] == False`, whose branch does
nothing.) -/
def tool_callback_loop : List Bool → Nat → List Bool
  | [], _ => []
  | v :: rest, 0 => v :: rest.map (fun _ => false)
  | _ :: rest, n + 1 => false :: tool_callback_loop rest n

/-- A list of toggles all forced to false holds no true value. -/
theorem count_true_map_false (l : List Bool) :
    (l.map (fun _ => false)).count true = 0 := by
  simp [List.count_replicate]

/-- C7: after the activation callback for the toggle at position `cur`,
every sibling position holds false, the activated position keeps its
value, and at most one toggle in the grid is true. -/
theorem c7_single_active_tool (grid : List Bool) (cur : Nat) :
    (tool_callback_loop grid cur).count true ≤ 1 ∧
    (∀ j, j < grid.length → j ≠ cur →
      (tool_callback_loop grid cur).get? j = some false) ∧
    (tool_callback_loop grid cur).get? cur = grid.get? cur := by
  induction grid generalizing cur with
  | nil =>
    refine ⟨by simp [tool_callback_loop], ?_, by simp [tool_callback_loop]⟩
    intro j hj
    simp at hj
  | cons v rest ih =>
    cases cur with
    | zero =>
      refine ⟨?_, ?_, by simp [tool_callback_loop]⟩
      · simp [tool_callback_loop, List.count_cons, List.count_replicate]
        cases v <;> simp
      · intro j hj hj0
        cases j with
        | zero => exact absurd rfl hj0
        | succ k =>
          simp only [tool_callback_loop, List.get?_cons_succ, List.get?_map]
          simp only [List.length_cons, Nat.succ_lt_succ_iff] at hj
          rcases List.get?_eq_get hj with h
          rw [h]
          rfl
    | succ n =>
      refine ⟨?_, ?_, ?_⟩
      · simpa [tool_callback_loop, List.count_cons] using (ih n).1
      · intro j hj hjc
        cases j with
        | zero => simp [tool_callback_loop]
        | succ k =>
          simp only [tool_callback_loop, List.get?_cons_succ]
          simp only [List.length_cons, Nat.succ_lt_succ_iff] at hj
          exact (ih n).2.1 k hj (fun h => hjc (by rw [h]))
      · simpa [tool_callback_loop] using (ih n).2.2

/-- Witness for C7 at a concrete grid: activating position 1 of
`[true, true, true]` leaves at most one active toggle, and position 0 is
forced to false. -/
theorem c7_single_active_tool_witness :
    (tool_callback_loop [true, true, true] 1).count true ≤ 1 ∧
    (tool_callback_loop [true, true, true] 1).get? 0 = some false :=
  ⟨(c7_single_active_tool [true, true, true] 1).1,
   (c7_single_active_tool [true, true, true] 1).2.1 0 (by decide) (by decide)⟩

/-- The map state touched by `split_basemaps`: the control list and the
layer list, controls and layers named by numbers. -/
structure SMapState where
  controls : List Nat
  layers : List Nat
deriving DecidableEq, Repr

/-- The two local variables `split_basemaps` records on entry:
`controls = m.controls` and `layers = m.layers`. -/
structure SplitSession where
  controls0 : List Nat
  layers0 : List Nat
deriving DecidableEq, Repr

/-- Control identifiers for the seven controls `split_basemaps` attaches
after `m.clear_controls()`: the split-map control, the left and right
dropdown controls, the close button control, zoom, fullscreen and scale
controls, in `add_control` order. -/
def splitModeControls : List Nat := [0, 1, 2, 3, 4, 5, 6]

/-- `split_basemaps`: records `controls = m.controls` and
`layers = m.layers`, clears the map's controls, and attaches the seven
split-mode controls; the layer list is not touched (the layer-reset line
in the source is commented out). -/
def split_basemaps (m : SMapState) : SplitSession × SMapState :=
  (⟨m.controls, m.layers⟩, { m with controls := splitModeControls })

/-- The `close_btn_click` handler of `split_basemaps`: on a change of the
close toggle to `True` it writes `m.controls = controls`, then
`m.clear_layers()` followed by `m.layers = layers`, which nets to
restoring the recorded layer list. -/
def split_close_btn_click (sess : SplitSession) (changeNew : Bool)
    (m : SMapState) : SMapState :=
  if changeNew then { controls := sess.controls0, layers := sess.layers0 }
  else m

/-- C8: `split_basemaps` records the map's control and layer lists on
entry, and its close button restores exactly those recorded lists, from
any map state reached while split mode was open — undoing every control
and layer change made in between. -/
theorem c8_split_mode_roundtrip (m t : SMapState) :
    (split_basemaps m).fst = ⟨m.controls, m.layers⟩ ∧
    split_close_btn_click (split_basemaps m).fst true t = m :=
  ⟨rfl, rfl⟩

/-- An XYZ tile layer as far as `time_slider` uses it. -/
structure TileLayer where
  url : String
  name : String
deriving DecidableEq, Repr

/-- The map state touched by `time_slider`: the layer list, the control
list (controls named by numbers) and `m.slider_ctrl`. -/
structure TSMapState where
  layers : List TileLayer
  controls : List Nat
  sliderCtrl : Option Nat
deriving DecidableEq, Repr

/-- The `layers_dict` argument of `time_slider`: either a Python dict
(key/layer pairs in insertion order) or a value of some other type. -/
inductive LayersDictArg where
  | dict (entries : List (String × TileLayer))
  | notDict
deriving DecidableEq, Repr

/-- The Python exceptions `time_slider` can raise before returning. -/
inductive PyError where
  | typeError
  | valueError
  | indexError
deriving DecidableEq, Repr

/-- Identifier of the slider widget control added by `time_slider`. -/
def sliderCtrlId : Nat := 10

/-- The `time_slider` function: rejects a non-dict `layers_dict` with
`TypeError`; replaces an empty dict by `planet_monthly_tiles()` (an
external call, passed here as the `planetTiles` argument); defaults
`labels` to the dict's keys; rejects a labels list whose length differs
from the effective dict's with `ValueError`; and only then mutates the
map: `m.add_layer` of the first dict entry's layer, then `m.add_control`
of the slider control and `m.slider_ctrl = slider_ctrl`.  (On an empty
effective dict, `keys[0]` would raise `IndexError`, still before any map
mutation.)  The returned pair is the map state after the call and the
exception raised, if any; an exception is raised before any mutation, so
the map state is returned unchanged alongside it. -/
def time_slider (m : TSMapState) (planetTiles : List (String × TileLayer))
    (layersDict : LayersDictArg) (labels : Option (List String)) :
    TSMapState × Option PyError :=
  match layersDict with
  | .notDict => (m, some .typeError)
  | .dict d =>
      let d := if d.length = 0 then planetTiles else d
      let labels := match labels with
        | none => d.map Prod.fst
        | some L => L
      if labels.length ≠ d.length then (m, some .valueError)
      else
        match d with
        | [] => (m, some .indexError)
        | (_, layer) :: _ =>
            ({ layers := m.layers ++ [layer],
               controls := m.controls ++ [sliderCtrlId],
               sliderCtrl := some sliderCtrlId }, none)

/-- C9 counterexample: with the external default tiles holding one entry,
calling `time_slider` with the empty dict and an explicit one-label list —
whose length 1 differs from the supplied dict's length 0 — raises no
`ValueError` at all and adds a layer and a control to the map, because
the empty dict is first replaced by the default tiles, whose length the
labels happen to match. -/
theorem c9_time_slider_counterexample :
    time_slider ⟨[], [], none⟩ [("2021-01", ⟨"u", "n"⟩)]
        (LayersDictArg.dict []) (some ["a"]) =
      (⟨[⟨"u", "n"⟩], [sliderCtrlId], some sliderCtrlId⟩, none) ∧
    (["a"].length ≠ ([] : List (String × TileLayer)).length) := by
  exact ⟨rfl, by decide⟩

/-- C9 amended: a non-dict `layers_dict` raises `TypeError` with the map
unchanged, and an explicit labels list whose length differs from the
length of the *effective* dict — the supplied dict, or the default planet
tiles when the supplied dict is empty — raises `ValueError` with the map
unchanged; both checks run before any layer or control is added. -/
theorem c9_time_slider_amended (m : TSMapState)
    (p d : List (String × TileLayer)) (lab : Option (List String))
    (L : List String)
    (hmis : L.length ≠ (if d.length = 0 then p else d).length) :
    time_slider m p LayersDictArg.notDict lab = (m, some PyError.typeError) ∧
    time_slider m p (LayersDictArg.dict d) (some L) =
      (m, some PyError.valueError) := by
  refine ⟨rfl, ?_⟩
  unfold time_slider
  have hmis2 : L.length ≠ (if d = [] then p else d).length := by
    simpa [List.length_eq_zero] using hmis
  simp [hmis2]

/-- Witness for C9 at concrete arguments: a two-label list against a
one-entry dict raises `ValueError` and leaves the empty map unchanged. -/
theorem c9_time_slider_amended_witness :
    time_slider ⟨[], [], none⟩ [] (LayersDictArg.dict [("k", ⟨"u", "n"⟩)])
        (some ["x", "y"]) = (⟨[], [], none⟩, some PyError.valueError) :=
  (c9_time_slider_amended ⟨[], [], none⟩ [] [("k", ⟨"u", "n"⟩)] none
    ["x", "y"] (by decide)).2

/-- A basemap layer as far as `change_basemap` uses it. -/
structure BLayer where
  name : String
  url : String
deriving DecidableEq, Repr

/-- The layer-list normalisation at the top of `change_basemap`:
`layers = list(m.layers)`; a single-layer list gets
`leafmap_basemaps["OpenStreetMap"]` (the `osm` argument, an external
value) appended; a longer list whose second layer is not named
`"OpenStreetMap"` gets it spliced in after the first layer; otherwise the
list is unchanged; the result is written back to `m.layers`. -/
def change_basemap_layers (osm : BLayer) : List BLayer → List BLayer
  | [] => []
  | [l0] => [l0, osm]
  | l0 :: l1 :: rest =>
      if l1.name ≠ "OpenStreetMap" then l0 :: osm :: l1 :: rest
      else l0 :: l1 :: rest

/-- `m.substitute_layer(old, new)` of the external map API: replaces the
occurrences of `old` in the map's layer list by `new`. -/
def substitute_layer (layers : List BLayer) (old nw : BLayer) : List BLayer :=
  layers.map (fun l => if l = old then nw else l)

/-- The dropdown handler `on_click` of `change_basemap`: reads
`old_basemap = m.layers[1]` and calls
`m.substitute_layer(old_basemap, leafmap_basemaps[basemap_name])`; with
fewer than two layers `m.layers[1]` raises `IndexError`, modelled as
`none`. -/
def on_click_substitute (layers : List BLayer) (chosen : BLayer) :
    Option (List BLayer) :=
  match layers with
  | l0 :: l1 :: rest => some (substitute_layer (l0 :: l1 :: rest) l1 chosen)
  | _ => none

/-- C10: on a map with at least one layer, `change_basemap` keeps the
first layer at index 0; with a single layer it appends the OpenStreetMap
basemap at index 1, with more layers it splices the OpenStreetMap basemap
in at index 1 unless the layer there is already named `"OpenStreetMap"`,
in which case the list is unchanged; and the dropdown handler always
substitutes the layer at index 1 (leaving index 0 alone whenever the two
differ). -/
theorem c10_change_basemap_normalises (osm b l0 : BLayer)
    (rest : List BLayer) :
    (change_basemap_layers osm (l0 :: rest)).get? 0 = some l0 ∧
    (rest = [] → change_basemap_layers osm (l0 :: rest) = [l0, osm]) ∧
    (∀ l1 rest2, rest = l1 :: rest2 →
      (l1.name = "OpenStreetMap" →
        change_basemap_layers osm (l0 :: rest) = l0 :: l1 :: rest2) ∧
      (l1.name ≠ "OpenStreetMap" →
        change_basemap_layers osm (l0 :: rest) = l0 :: osm :: l1 :: rest2)) ∧
    (∀ x y : BLayer, ∀ zs : List BLayer, x ≠ y →
      ∃ t, on_click_substitute (x :: y :: zs) b = some t ∧
        t.get? 1 = some b ∧ t.get? 0 = some x) := by
  refine ⟨?_, ?_, ?_, ?_⟩
  · cases rest with
    | nil => rfl
    | cons l1 rest2 =>
      by_cases h : l1.name = "OpenStreetMap" <;>
        simp [change_basemap_layers, h]
  · intro h
    subst h
    rfl
  · intro l1 rest2 h
    subst h
    constructor
    · intro h1
      simp [change_basemap_layers, h1]
    · intro h1
      simp [change_basemap_layers, h1]
  · intro x y zs hxy
    refine ⟨substitute_layer (x :: y :: zs) y b, rfl, ?_, ?_⟩
    · simp [substitute_layer]
    · simp [substitute_layer, hxy]

/-- Witness for C10 at concrete layers: a two-layer map whose second
layer is named `"A"` gets OpenStreetMap spliced in at index 1, and the
handler then substitutes index 1 with the chosen basemap. -/
theorem c10_change_basemap_normalises_witness :
    change_basemap_layers ⟨"OpenStreetMap", "ou"⟩
        [⟨"base", "bu"⟩, ⟨"A", "au"⟩] =
      [⟨"base", "bu"⟩, ⟨"OpenStreetMap", "ou"⟩, ⟨"A", "au"⟩] ∧
    (∃ t, on_click_substitute
        [⟨"base", "bu"⟩, ⟨"OpenStreetMap", "ou"⟩, ⟨"A", "au"⟩]
        ⟨"Esri", "eu"⟩ = some t ∧
      t.get? 1 = some ⟨"Esri", "eu"⟩ ∧ t.get? 0 = some ⟨"base", "bu"⟩) :=
  ⟨((c10_change_basemap_normalises ⟨"OpenStreetMap", "ou"⟩ ⟨"Esri", "eu"⟩
      ⟨"base", "bu"⟩ [⟨"A", "au"⟩]).2.2.1 ⟨"A", "au"⟩ [] rfl).2 (by decide),
   (c10_change_basemap_normalises ⟨"OpenStreetMap", "ou"⟩ ⟨"Esri", "eu"⟩
      ⟨"base", "bu"⟩ [⟨"A", "au"⟩]).2.2.2 ⟨"base", "bu"⟩
      ⟨"OpenStreetMap", "ou"⟩ [⟨"A", "au"⟩] (by decide)⟩

end Toolbar

